import Mathlib

/-!
Shallow embedding of the helmet-reservation / QR check-in core of the
afroboosteur repository, together with proofs about the route handlers:

* `scanPOST`        — src/unnamed/part_000 (POST /api/helmet-reservations/scan)
* `createPOST`      — src/src/app/api/helmet-reservations/create/route.ts
* `deleteResDELETE` — src/src/app/api/helmet-reservations/[reservationId]/route.ts
* `bulkDeletePOST`  — src/unnamed/part_001 (POST bulk schedule deletion)

The document-store service layer (`@/lib/database`) is not part of the
provided sources; its operations are modelled from the spec as simple
keyed queries and single-record updates over in-memory lists.
JavaScript dates are modelled by `JSDate` (a millisecond instant or the
Invalid Date / NaN value); machine time arithmetic is exact integer
arithmetic on milliseconds.
-/

namespace Afroboosteur

/-- Reservation lifecycle states: booked (initial), checked_in and
cancelled (both terminal). -/
inductive ResStatus
| booked
| checked_in
| cancelled
deriving DecidableEq, Repr

/-- A JavaScript Date value: either a valid millisecond instant or the
Invalid Date (whose numeric value is NaN). -/
inductive JSDate
| valid (ms : Int)
| invalid
deriving DecidableEq, Repr

/-- JavaScript relational comparison of two Date values: any comparison
involving NaN (Invalid Date) is false. -/
def JSDate.ltb : JSDate → JSDate → Bool
| .valid a, .valid b => decide (a < b)
| _, _ => false

/-- The several shapes in which a schedule startTime arrives from the
document store: a timestamp object carrying toDate, a native Date
instance (possibly invalid), an object with an embedded seconds field, a
truthy raw value together with the result of parsing it with the Date
constructor, or a falsy/absent value. -/
inductive TimeVal
| tsToDate (ms : Int)
| dateInst (d : JSDate)
| secondsObj (seconds : Int)
| rawVal (parsed : JSDate)
| absent
deriving DecidableEq, Repr

structure UserRec where
  id : String
  firstName : String
  lastName : String
  email : String
deriving DecidableEq, Repr

structure Schedule where
  id : String
  courseId : String
  title : String
  startTime : TimeVal
  endTime : TimeVal
  location : String
  createdBy : String
deriving DecidableEq, Repr

structure Course where
  id : String
  coachId : String
deriving DecidableEq, Repr

structure QRRecord where
  userId : String
  qrCodeData : String
  qrCodeImage : String
deriving DecidableEq, Repr

structure Reservation where
  id : String
  userId : String
  userName : String
  userEmail : String
  courseId : String
  courseName : String
  scheduleId : String
  coachId : String
  reservationDate : Nat
  classStartTime : TimeVal
  classEndTime : TimeVal
  location : String
  status : ResStatus
  checkinTime : Option Nat
  qrCode : String
deriving DecidableEq, Repr

structure Notification where
  userId : String
  title : String
  message : String
  ntype : String
  read : Bool
deriving DecidableEq, Repr

/-- The relevant state of the document store, plus the record of
dispatched e-mails (an external side effect we track to reason about
best-effort semantics). `nextId` models the store-generated document id
for newly created reservations. -/
structure DB where
  users : List UserRec
  schedules : List Schedule
  courses : List Course
  userQRCodes : List QRRecord
  reservations : List Reservation
  notifications : List Notification
  emails : List String
  nextId : Nat
deriving DecidableEq, Repr

/-- Modelled from the spec: user lookup by id is a simple keyed query
against the document store (the `userService.getById` collaborator). -/
def userService.getById (db : DB) (id : String) : Option UserRec :=
  db.users.find? (fun u => u.id = id)

/-- Modelled from the spec: schedule lookup by id
(`scheduleService.getById`). -/
def scheduleService.getById (db : DB) (id : String) : Option Schedule :=
  db.schedules.find? (fun s => s.id = id)

/-- Modelled from the spec: course lookup by id (`courseService.getById`). -/
def courseService.getById (db : DB) (id : String) : Option Course :=
  db.courses.find? (fun c => c.id = id)

/-- Modelled from the spec: QR identity lookup by token
(`userQRCodeService.getByQRCodeData`), used exclusively during check-in. -/
def userQRCodeService.getByQRCodeData (db : DB) (data : String) : Option QRRecord :=
  db.userQRCodes.find? (fun q => q.qrCodeData = data)

/-- Modelled from the spec: QR identity lookup by owning user
(`userQRCodeService.getByUserId`). -/
def userQRCodeService.getByUserId (db : DB) (userId : String) : Option QRRecord :=
  db.userQRCodes.find? (fun q => q.userId = userId)

/-- Modelled from the spec: persisting a new QR identity record
(`userQRCodeService.create`). -/
def userQRCodeService.create (db : DB) (q : QRRecord) : DB :=
  { db with userQRCodes := db.userQRCodes ++ [q] }

/-- Modelled from the spec: reservation lookup by id
(`helmetReservationService.getById`). -/
def helmetReservationService.getById (db : DB) (id : String) : Option Reservation :=
  db.reservations.find? (fun r => r.id = id)

/-- Modelled from the spec: reservation lookup keyed by (user, schedule)
(`helmetReservationService.getByUserAndSchedule`). -/
def helmetReservationService.getByUserAndSchedule (db : DB) (userId scheduleId : String) :
    Option Reservation :=
  db.reservations.find? (fun r => r.userId = userId ∧ r.scheduleId = scheduleId)

/-- Modelled from the spec: all reservations of one schedule
(`helmetReservationService.getByScheduleId`). -/
def helmetReservationService.getByScheduleId (db : DB) (scheduleId : String) :
    List Reservation :=
  db.reservations.filter (fun r => r.scheduleId = scheduleId)

/-- Modelled from the spec: the check-in transition of the store layer
(`helmetReservationService.checkIn`): set status to checked_in and record
checkinTime = now on the reservation with the given id. -/
def helmetReservationService.checkIn (db : DB) (id : String) (now : Nat) : DB :=
  { db with reservations :=
      db.reservations.map (fun r =>
        if r.id = id then { r with status := .checked_in, checkinTime := some now } else r) }

/-- Modelled from the spec: the cancel transition of the store layer
(`helmetReservationService.cancel`): set status to cancelled on the
reservation with the given id. -/
def helmetReservationService.cancel (db : DB) (id : String) : DB :=
  { db with reservations :=
      db.reservations.map (fun r =>
        if r.id = id then { r with status := .cancelled } else r) }

/-- Modelled from the spec: creating a reservation record
(`helmetReservationService.create`): the store assigns a fresh document
id and persists the record; the handler receives the id back. -/
def helmetReservationService.create (db : DB) (r : Reservation) : String × DB :=
  let newId := "res_" ++ toString db.nextId
  (newId,
   { db with reservations := db.reservations ++ [{ r with id := newId }],
             nextId := db.nextId + 1 })

/-- Modelled from the spec: notification creation collaborator
(`notificationService.create`), fire-and-forget from the caller's view. -/
def notificationService.create (db : DB) (n : Notification) : DB :=
  { db with notifications := db.notifications ++ [n] }

/-- Modelled from the spec: rendering a QR token to an image artifact
(the qrcode library's toDataURL); the image is a pure function of the
token. -/
def renderQRImage (data : String) : String :=
  "data:image/png;" ++ data

/-- Tagged scan statuses, one variant per named status of the scan
endpoint. -/
inductive ScanStatus
| invalid_qr
| invalid_schedule
| no_reservation
| already_checked_in
| cancelled
| success
deriving DecidableEq, Repr

/-- The JSON body returned by the scan endpoint on a recognized outcome.
Fields absent from a given branch of the handler are `none`. -/
structure ScanBody where
  valid : Bool
  status : ScanStatus
  message : String
  userName : Option String := none
  userEmail : Option String := none
  courseName : Option String := none
  location : Option String := none
  checkinTime : Option (Option Nat) := none
  reservationId : Option String := none
deriving DecidableEq, Repr

/-- Outcome of the scan endpoint: a recognized tagged result (HTTP 200)
or a true error with an HTTP status. -/
inductive ScanOut
| ok (body : ScanBody)
| error (httpStatus : Nat) (msg : String)
deriving DecidableEq, Repr

/-- The scan route handler (src/unnamed/part_000, POST): resolves the QR
token, the schedule and the reservation in order, short-circuiting on the
first failure with a tagged result, and otherwise performs the check-in
transition. Returns the response together with the resulting store
state. -/
def scanPOST (db : DB) (qrCodeData scheduleId : String) (now : Nat) : ScanOut × DB :=
  if qrCodeData = "" ∨ scheduleId = "" then
    (.error 400 "Missing required fields: qrCodeData and scheduleId", db)
  else
    match userQRCodeService.getByQRCodeData db qrCodeData with
    | none => (.ok { valid := false, status := .invalid_qr, message := "Invalid QR code" }, db)
    | some userQRCode =>
      match scheduleService.getById db scheduleId with
      | none =>
        (.ok { valid := false, status := .invalid_schedule, message := "Schedule not found" }, db)
      | some _ =>
        match helmetReservationService.getByUserAndSchedule db userQRCode.userId scheduleId with
        | none =>
          (.ok { valid := false, status := .no_reservation,
                 message := "No reservation found for this class", userName := some "" }, db)
        | some reservation =>
          if reservation.status = .checked_in then
            (.ok { valid := false, status := .already_checked_in,
                   message := "Already checked in",
                   userName := some reservation.userName,
                   checkinTime := some reservation.checkinTime }, db)
          else if reservation.status = .cancelled then
            (.ok { valid := false, status := .cancelled,
                   message := "Reservation was cancelled",
                   userName := some reservation.userName }, db)
          else
            (.ok { valid := true, status := .success,
                   message := "Welcome " ++ reservation.userName ++ "!",
                   userName := some reservation.userName,
                   userEmail := some reservation.userEmail,
                   courseName := some reservation.courseName,
                   location := some reservation.location,
                   reservationId := some reservation.id },
             helmetReservationService.checkIn db reservation.id now)

/-- The conversion the create route applies to schedule times before
formatting (create/route.ts lines 95-100): a native Date instance is used
as is, anything else must expose toDate; shapes without toDate (embedded
seconds objects, raw values, absent values) make the expression throw,
modelled by `none`. -/
def asJSDate : TimeVal → Option JSDate
| .dateInst d => some d
| .tsToDate ms => some (.valid ms)
| .secondsObj _ => none
| .rawVal _ => none
| .absent => none

/-- A printable rendering of a schedule time for notification text; the
exact text is irrelevant to the endpoint semantics. -/
def formatDate : JSDate → String
| .valid ms => "on " ++ toString ms
| .invalid => "Invalid Date"

/-- The QR identity record freshly derived for a user at a given
creation time: token USER_<userId>_<now> plus the rendered image
(create/route.ts lines 49-63). -/
def newQR (userId : String) (now : Nat) : QRRecord :=
  { userId := userId,
    qrCodeData := "USER_" ++ userId ++ "_" ++ toString now,
    qrCodeImage := renderQRImage ("USER_" ++ userId ++ "_" ++ toString now) }

/-- The get-or-create block of the create route (create/route.ts lines
45-66), also the QR Identity Issuer resolveOrCreate of the spec: look up
the user's QR identity; when absent, derive the token
USER_<userId>_<now>, render the image, persist, and re-read. Returns the
identity (as the route's re-read does) and the resulting store state. -/
def resolveOrCreateQR (db : DB) (userId : String) (now : Nat) : Option QRRecord × DB :=
  match userQRCodeService.getByUserId db userId with
  | some q => (some q, db)
  | none =>
    let db1 := userQRCodeService.create db (newQR userId now)
    (userQRCodeService.getByUserId db1 userId, db1)

/-- Outcome of the reservation-creation endpoint. -/
inductive CreateOut
| ok (reservationId : String) (qrCode : String) (message : String)
| error (httpStatus : Nat) (msg : String)
deriving DecidableEq, Repr

/-- The tail of the create route after the duplicate check (create/
route.ts lines 45-152): resolve or create the QR identity, persist the
reservation snapshot with status booked, format the class dates (a shape
without toDate throws here and surfaces as 500 from the outer catch),
create the notification — not locally guarded, so a failure there
(modelled by `notifFails`) also surfaces as 500 from the outer catch —
then attempt the e-mail dispatch inside its own try/catch (a failure
there, `emailFails`, is swallowed), and report success. -/
def createRest (db : DB) (user : UserRec) (schedule : Schedule) (userId scheduleId : String)
    (now : Nat) (notifFails emailFails : Bool) : CreateOut × DB :=
  match resolveOrCreateQR db userId now with
  | (none, db1) => (.error 500 "Failed to generate QR code", db1)
  | (some userQRCode, db1) =>
    let created := helmetReservationService.create db1
      { id := "",
        userId := userId,
        userName := user.firstName ++ " " ++ user.lastName,
        userEmail := user.email,
        courseId := schedule.courseId,
        courseName := schedule.title,
        scheduleId := scheduleId,
        coachId := schedule.createdBy,
        reservationDate := now,
        classStartTime := schedule.startTime,
        classEndTime := schedule.endTime,
        location := schedule.location,
        status := .booked,
        checkinTime := none,
        qrCode := userQRCode.qrCodeData }
    let reservationId := created.1
    let db2 := created.2
    match asJSDate schedule.startTime, asJSDate schedule.endTime with
    | some classDate, some _ =>
      if notifFails then (.error 500 "Internal server error", db2)
      else
        let db3 := notificationService.create db2
          { userId := userId, title := "Helmet Reserved!",
            message := "Your helmet is reserved for " ++ schedule.title ++ " "
              ++ formatDate classDate,
            ntype := "booking", read := false }
        let db4 := if emailFails then db3 else { db3 with emails := db3.emails ++ [user.email] }
        (.ok reservationId userQRCode.qrCodeImage "Helmet reservation created successfully", db4)
    | _, _ => (.error 500 "Internal server error", db2)

/-- The reservation-creation route handler (create/route.ts, POST):
validate inputs, look up user and schedule, reject a duplicate active
reservation (any existing reservation whose status is not cancelled),
else run the creation tail. -/
def createPOST (db : DB) (userId scheduleId : String) (now : Nat)
    (notifFails emailFails : Bool) : CreateOut × DB :=
  if userId = "" ∨ scheduleId = "" then
    (.error 400 "Missing required fields: userId and scheduleId", db)
  else
    match userService.getById db userId with
    | none => (.error 404 "User not found", db)
    | some user =>
      match scheduleService.getById db scheduleId with
      | none => (.error 404 "Schedule not found", db)
      | some schedule =>
        match helmetReservationService.getByUserAndSchedule db userId scheduleId with
        | some existing =>
          if existing.status ≠ .cancelled then
            (.error 400 "You already have a reservation for this class", db)
          else
            createRest db user schedule userId scheduleId now notifFails emailFails
        | none =>
          createRest db user schedule userId scheduleId now notifFails emailFails

/-- Outcome of the single-reservation cancel endpoint. -/
inductive DelOut
| ok (message : String)
| error (httpStatus : Nat) (msg : String)
deriving DecidableEq, Repr

/-- The single-reservation DELETE route handler
([reservationId]/route.ts): 400 on missing id, 404 on unknown id, 400
Conflict when the reservation is already checked in, otherwise the cancel
transition and a success report. -/
def deleteResDELETE (db : DB) (reservationId : String) : DelOut × DB :=
  if reservationId = "" then (.error 400 "Reservation ID is required", db)
  else
    match helmetReservationService.getById db reservationId with
    | none => (.error 404 "Reservation not found", db)
    | some reservation =>
      if reservation.status = .checked_in then
        (.error 400 "Cannot cancel a reservation that has already been checked in", db)
      else
        (.ok "Reservation cancelled successfully",
         helmetReservationService.cancel db reservationId)

/-- courseService.getAll, modelled from the spec as listing the course
collection. -/
def courseService.getAll (db : DB) : List Course :=
  db.courses

/-- Removing a schedule document from the courseSchedules collection
(the deleteDoc call of the bulk-delete route). -/
def deleteScheduleDoc (db : DB) (id : String) : DB :=
  { db with schedules := db.schedules.filter (fun s => s.id ≠ id) }

/-- Milliseconds in one day. -/
def msPerDay : Int := 86400000

/-- setHours(0,0,0,0): the 00:00:00.000 instant of the bound's day. -/
def startOfDay (t : Int) : Int := msPerDay * (t.fdiv msPerDay)

/-- setHours(23,59,59,999): the 23:59:59.999 instant of the bound's day. -/
def endOfDay (t : Int) : Int := startOfDay t + (msPerDay - 1)

/-- The shape normalization of a schedule startTime inside the date
filter (part_001 lines 104-114): a timestamp object is converted with
toDate, a native Date is used as is, an embedded-seconds object is
multiplied to milliseconds, a truthy raw value goes through the Date
constructor (possibly yielding Invalid Date), and a falsy value makes the
filter return false, modelled by `none`. -/
def toInstant : TimeVal → Option JSDate
| .tsToDate ms => some (.valid ms)
| .dateInst d => some d
| .secondsObj s => some (.valid (s * 1000))
| .rawVal parsed => some parsed
| .absent => none

/-- The body of the date-range filter predicate (part_001 lines 99-131),
given the already normalized bounds: absent startTime is rejected;
otherwise the schedule is dropped when its instant compares before the
start bound or after the end bound — comparisons against Invalid Date are
false, as in JavaScript. -/
def dateKeep (startB endB : Option Int) (st : TimeVal) : Bool :=
  match toInstant st with
  | none => false
  | some d =>
    if (match startB with | some s => JSDate.ltb d (.valid s) | none => false) then false
    else if (match endB with | some e => JSDate.ltb (.valid e) d | none => false) then false
    else true

/-- Step 3 of the bulk-delete route: when a date bound is present,
normalize the bounds to their day boundaries and keep the schedules whose
startTime passes `dateKeep`. -/
def filterByDate (startDate endDate : Option Int) (schedules : List Schedule) : List Schedule :=
  if startDate.isNone ∧ endDate.isNone then schedules
  else
    schedules.filter (fun s =>
      dateKeep (startDate.map startOfDay) (endDate.map endOfDay) s.startTime)

/-- The ownership test of the no-courseId branch (part_001 lines 68-82):
a schedule is kept when the coach created it or when its course belongs
to the coach. -/
def ownedByCoach (db : DB) (coachId : String) (s : Schedule) : Bool :=
  if s.createdBy = coachId then true
  else
    match (courseService.getAll db).find? (fun c => c.id = s.courseId) with
    | some c => c.coachId = coachId
    | none => false

/-- Step 2 of the bulk-delete route: with an explicit courseId, verify
the course exists (else 404) and belongs to the requesting coach (else
403), then keep only that course's schedules; without one, keep the
schedules created by the coach or whose course belongs to the coach. -/
def filterByCourse (db : DB) (coachId : String) (courseId : Option String)
    (schedules : List Schedule) : Except (Nat × String) (List Schedule) :=
  match courseId with
  | some cid =>
    match courseService.getById db cid with
    | none => .error (404, "Course not found")
    | some course =>
      if course.coachId ≠ coachId then
        .error (403, "You do not have permission to delete schedules for this course")
      else
        .ok (schedules.filter (fun s => s.courseId = cid))
  | none =>
    .ok (schedules.filter (fun s => ownedByCoach db coachId s))

/-- Error message pushed when deleting one schedule fails (part_001 line
170); the throw's own text is abstracted. -/
def deleteErrMsg (id : String) : String :=
  "Error deleting schedule " ++ id ++ ": Unknown error"

/-- Accumulator of the per-schedule deletion loop. -/
structure LoopState where
  deletedCount : Nat
  cancelledCount : Nat
  errors : List String
  db : DB
deriving Repr

/-- Cancelling the reservations of one schedule inside the loop (part_001
lines 154-160): every reservation not already checked_in or cancelled is
cancelled and counted. -/
def cancelResStep (st : LoopState) (r : Reservation) : LoopState :=
  if r.status ≠ .checked_in ∧ r.status ≠ .cancelled then
    { st with db := helmetReservationService.cancel st.db r.id,
              cancelledCount := st.cancelledCount + 1 }
  else st

/-- One iteration of the bulk-delete loop (part_001 lines 150-174).
`resFail id` models the inner try block (reservation lookup/cancellation)
throwing for that schedule: the failure is only logged, so the state is
left as is and the iteration continues. `delFail id` models the deleteDoc
call throwing: the error message is appended and the schedule is neither
deleted nor counted; otherwise the schedule document is removed and
counted. -/
def processOne (delFail resFail : String → Bool) (st : LoopState) (schedule : Schedule) :
    LoopState :=
  let st1 :=
    if resFail schedule.id then st
    else
      (helmetReservationService.getByScheduleId st.db schedule.id).foldl cancelResStep st
  if delFail schedule.id then
    { st1 with errors := st1.errors ++ [deleteErrMsg schedule.id] }
  else
    { st1 with db := deleteScheduleDoc st1.db schedule.id,
               deletedCount := st1.deletedCount + 1 }

/-- Step 4 of the bulk-delete route: fold the loop over the matched
schedules starting from zero counters and an empty error list. -/
def processSchedules (delFail resFail : String → Bool) (db : DB)
    (schedules : List Schedule) : LoopState :=
  schedules.foldl (processOne delFail resFail)
    { deletedCount := 0, cancelledCount := 0, errors := [], db := db }

/-- The JSON body of a bulk-delete response; the no-match response
carries neither a cancelled count nor an error list, and a populated
error list is present only when nonempty. -/
structure BulkBody where
  success : Bool
  deletedCount : Nat
  cancelledReservationsCount : Option Nat := none
  errors : Option (List String) := none
  message : String
deriving DecidableEq, Repr

/-- Outcome of the bulk-delete endpoint. -/
inductive BulkOut
| ok (body : BulkBody)
| error (httpStatus : Nat) (msg : String)
deriving DecidableEq, Repr

/-- The bulk-delete request body; `none` models an absent or falsy
field, and the date bounds are the parsed instants of the supplied
dates. -/
structure BulkReq where
  courseId : Option String
  startDate : Option Int
  endDate : Option Int
  coachId : Option String
deriving DecidableEq, Repr

/-- The bulk schedule deletion route handler (src/unnamed/part_001,
POST): validate coachId and the presence of at least one filter, load all
schedules, apply the course/ownership filter (404/403 on violations),
apply the date filter, report success=false with no deletion when nothing
matches, and otherwise run the per-schedule loop and report its
counters. -/
def bulkDeletePOST (db : DB) (req : BulkReq) (delFail resFail : String → Bool) :
    BulkOut × DB :=
  match req.coachId with
  | none => (.error 400 "Coach ID is required", db)
  | some coachId =>
    if req.courseId.isNone ∧ req.startDate.isNone ∧ req.endDate.isNone then
      (.error 400 "At least one filter (course or date range) must be provided", db)
    else
      match filterByCourse db coachId req.courseId db.schedules with
      | .error e => (.error e.1 e.2, db)
      | .ok byCourse =>
        let matched := filterByDate req.startDate req.endDate byCourse
        if matched.isEmpty then
          (.ok { success := false, deletedCount := 0,
                 message := "Aucune session trouvee correspondant aux criteres selectionnes" },
           db)
        else
          let st := processSchedules delFail resFail db matched
          (.ok { success := true,
                 deletedCount := st.deletedCount,
                 cancelledReservationsCount := some st.cancelledCount,
                 errors := if st.errors.isEmpty then none else some st.errors,
                 message := toString st.deletedCount ++ " session(s) supprimee(s) avec succes" },
           st.db)

/-- A Bool test for a successful creation outcome. -/
def CreateOut.isOk : CreateOut → Bool
| .ok _ _ _ => true
| .error _ _ => false

/-- The success flag of a recognized bulk-delete response. -/
def BulkOut.successOf : BulkOut → Option Bool
| .ok b => some b.success
| .error _ _ => none

/-- The deletedCount of a recognized bulk-delete response. -/
def BulkOut.deletedCountOf : BulkOut → Option Nat
| .ok b => some b.deletedCount
| .error _ _ => none

/-- The errors field of a recognized bulk-delete response. -/
def BulkOut.errorsOf : BulkOut → Option (Option (List String))
| .ok b => some b.errors
| .error _ _ => none

/-- Fixture: a user record. -/
def exUser : UserRec :=
  { id := "u1", firstName := "Ada", lastName := "Lovelace", email := "ada@example.com" }

/-- Fixture: a course owned by coach1. -/
def exCourse : Course := { id := "c1", coachId := "coach1" }

/-- Fixture: a course owned by a different coach. -/
def exCourseOther : Course := { id := "c2", coachId := "other" }

/-- Fixture: a schedule of course c1. -/
def exSchedule : Schedule :=
  { id := "s1", courseId := "c1", title := "Afro Dance",
    startTime := .dateInst (.valid 1000), endTime := .dateInst (.valid 2000),
    location := "Studio A", createdBy := "coach1" }

/-- Fixture: a second schedule of course c1. -/
def exSchedule2 : Schedule :=
  { id := "s2", courseId := "c1", title := "Afro Dance",
    startTime := .dateInst (.valid 3000), endTime := .dateInst (.valid 4000),
    location := "Studio A", createdBy := "coach1" }

/-- Fixture: the QR identity of u1. -/
def exQR : QRRecord := { userId := "u1", qrCodeData := "QR1", qrCodeImage := "img1" }

/-- Fixture: a reservation of u1 on s1 in a given state. -/
def exReservation (st : ResStatus) : Reservation :=
  { id := "r1", userId := "u1", userName := "Ada Lovelace", userEmail := "ada@example.com",
    courseId := "c1", courseName := "Afro Dance", scheduleId := "s1", coachId := "coach1",
    reservationDate := 0, classStartTime := .dateInst (.valid 1000),
    classEndTime := .dateInst (.valid 2000), location := "Studio A",
    status := st, checkinTime := none, qrCode := "QR1" }

/-- Fixture: a store with one user, two schedules, two courses, one QR
identity and one reservation in the given state. -/
def exDB (st : ResStatus) : DB :=
  { users := [exUser], schedules := [exSchedule, exSchedule2],
    courses := [exCourse, exCourseOther], userQRCodes := [exQR],
    reservations := [exReservation st], notifications := [], emails := [], nextId := 0 }

/-- Fixture: the same store with no reservation. -/
def exDBNoRes : DB := { exDB .booked with reservations := [] }

/-- Fixture: the same store with neither reservation nor QR identity. -/
def exDBNoQR : DB := { exDBNoRes with userQRCodes := [] }

/-- Claim C1: the check-in (scan) operation evaluates its conditions in
the stated order, short-circuits on the first match, and returns a tagged
result in every branch: unknown qrToken gives invalid_qr, unknown
schedule gives invalid_schedule, a missing reservation for the resolved
(userId, scheduleId) gives no_reservation, a checked_in reservation gives
already_checked_in, a cancelled one gives cancelled, and otherwise the
reservation is checked in (persisted) and the result is success with the
user/course/location display fields. The store is untouched in every
negative branch. -/
theorem scanPOST_branch_order (db : DB) (q s : String) (now : Nat)
    (hq : q ≠ "") (hs : s ≠ "") :
    (userQRCodeService.getByQRCodeData db q = none →
      scanPOST db q s now =
        (.ok { valid := false, status := .invalid_qr, message := "Invalid QR code" }, db)) ∧
    (∀ uq, userQRCodeService.getByQRCodeData db q = some uq →
      scheduleService.getById db s = none →
      scanPOST db q s now =
        (.ok { valid := false, status := .invalid_schedule, message := "Schedule not found" },
         db)) ∧
    (∀ uq sch, userQRCodeService.getByQRCodeData db q = some uq →
      scheduleService.getById db s = some sch →
      helmetReservationService.getByUserAndSchedule db uq.userId s = none →
      scanPOST db q s now =
        (.ok { valid := false, status := .no_reservation,
               message := "No reservation found for this class", userName := some "" }, db)) ∧
    (∀ uq sch r, userQRCodeService.getByQRCodeData db q = some uq →
      scheduleService.getById db s = some sch →
      helmetReservationService.getByUserAndSchedule db uq.userId s = some r →
      r.status = .checked_in →
      scanPOST db q s now =
        (.ok { valid := false, status := .already_checked_in, message := "Already checked in",
               userName := some r.userName, checkinTime := some r.checkinTime }, db)) ∧
    (∀ uq sch r, userQRCodeService.getByQRCodeData db q = some uq →
      scheduleService.getById db s = some sch →
      helmetReservationService.getByUserAndSchedule db uq.userId s = some r →
      r.status = .cancelled →
      scanPOST db q s now =
        (.ok { valid := false, status := .cancelled, message := "Reservation was cancelled",
               userName := some r.userName }, db)) ∧
    (∀ uq sch r, userQRCodeService.getByQRCodeData db q = some uq →
      scheduleService.getById db s = some sch →
      helmetReservationService.getByUserAndSchedule db uq.userId s = some r →
      r.status = .booked →
      scanPOST db q s now =
        (.ok { valid := true, status := .success, message := "Welcome " ++ r.userName ++ "!",
               userName := some r.userName, userEmail := some r.userEmail,
               courseName := some r.courseName, location := some r.location,
               reservationId := some r.id },
         helmetReservationService.checkIn db r.id now)) := by
  have hcond : ¬(q = "" ∨ s = "") := by
    rintro (h | h)
    · exact hq h
    · exact hs h
  refine ⟨?_, ?_, ?_, ?_, ?_, ?_⟩
  · intro h1
    simp [scanPOST, if_neg hcond, h1]
  · intro uq h1 h2
    simp [scanPOST, if_neg hcond, h1, h2]
  · intro uq sch h1 h2 h3
    simp [scanPOST, if_neg hcond, h1, h2, h3]
  · intro uq sch r h1 h2 h3 hr
    simp [scanPOST, if_neg hcond, h1, h2, h3, hr]
  · intro uq sch r h1 h2 h3 hr
    simp [scanPOST, if_neg hcond, h1, h2, h3, hr]
  · intro uq sch r h1 h2 h3 hr
    simp [scanPOST, if_neg hcond, h1, h2, h3, hr]

/-- Witness for C1: scanning the booked fixture reservation checks it in
and returns the success payload. -/
theorem scanPOST_branch_order_witness :
    scanPOST (exDB .booked) "QR1" "s1" 77 =
      (.ok { valid := true, status := .success, message := "Welcome Ada Lovelace!",
             userName := some "Ada Lovelace", userEmail := some "ada@example.com",
             courseName := some "Afro Dance", location := some "Studio A",
             reservationId := some "r1" },
       helmetReservationService.checkIn (exDB .booked) "r1" 77) := by
  exact (scanPOST_branch_order (exDB .booked) "QR1" "s1" 77 (by decide)
      (by decide)).2.2.2.2.2 exQR exSchedule (exReservation .booked) rfl rfl rfl rfl

/-- Claim C3: cancelling a checked_in reservation fails with 400 and
leaves the store unchanged, cancelling an already-cancelled reservation
still reports success, and cancelling an unknown id fails with 404. -/
theorem deleteResDELETE_rules (db : DB) (id : String) (hid : id ≠ "") :
    (helmetReservationService.getById db id = none →
      deleteResDELETE db id = (.error 404 "Reservation not found", db)) ∧
    (∀ r, helmetReservationService.getById db id = some r → r.status = .checked_in →
      deleteResDELETE db id =
        (.error 400 "Cannot cancel a reservation that has already been checked in", db)) ∧
    (∀ r, helmetReservationService.getById db id = some r → r.status = .cancelled →
      deleteResDELETE db id =
        (.ok "Reservation cancelled successfully", helmetReservationService.cancel db id)) := by
  refine ⟨?_, ?_, ?_⟩
  · intro h1
    simp [deleteResDELETE, if_neg hid, h1]
  · intro r h1 hr
    simp [deleteResDELETE, if_neg hid, h1, hr]
  · intro r h1 hr
    simp [deleteResDELETE, if_neg hid, h1, hr]

/-- Witness for C3: the checked-in fixture reservation cannot be
cancelled and the store is untouched. -/
theorem deleteResDELETE_rules_witness :
    deleteResDELETE (exDB .checked_in) "r1" =
      (.error 400 "Cannot cancel a reservation that has already been checked in",
       exDB .checked_in) := by
  exact (deleteResDELETE_rules (exDB .checked_in) "r1" (by decide)).2.1
    (exReservation .checked_in) rfl rfl

/-- Claim C4: invoking check-in on a reservation already in state
checked_in returns the tagged already_checked_in result with valid=false,
mutates nothing (the stored checkinTime included), and a second
invocation returns the very same result. -/
theorem scanPOST_already_checked_in_idempotent (db : DB) (q s : String) (now now2 : Nat)
    (hq : q ≠ "") (hs : s ≠ "")
    (uq : QRRecord) (h1 : userQRCodeService.getByQRCodeData db q = some uq)
    (sch : Schedule) (h2 : scheduleService.getById db s = some sch)
    (r : Reservation)
    (h3 : helmetReservationService.getByUserAndSchedule db uq.userId s = some r)
    (hr : r.status = .checked_in) :
    scanPOST db q s now =
      (.ok { valid := false, status := .already_checked_in, message := "Already checked in",
             userName := some r.userName, checkinTime := some r.checkinTime }, db) ∧
    scanPOST (scanPOST db q s now).2 q s now2 = scanPOST db q s now2 ∧
    scanPOST db q s now2 = scanPOST db q s now := by
  have hcond : ¬(q = "" ∨ s = "") := by
    rintro (h | h)
    · exact hq h
    · exact hs h
  have hmain : ∀ n : Nat, scanPOST db q s n =
      (.ok { valid := false, status := .already_checked_in, message := "Already checked in",
             userName := some r.userName, checkinTime := some r.checkinTime }, db) := by
    intro n
    simp [scanPOST, if_neg hcond, h1, h2, h3, hr]
  refine ⟨hmain now, ?_, ?_⟩
  · rw [hmain now]
  · rw [hmain now, hmain now2]

/-- Witness for C4: scanning the checked-in fixture twice returns
already_checked_in both times and leaves the store fixed. -/
theorem scanPOST_already_checked_in_idempotent_witness :
    scanPOST (exDB .checked_in) "QR1" "s1" 77 =
      (.ok { valid := false, status := .already_checked_in, message := "Already checked in",
             userName := some "Ada Lovelace", checkinTime := some none }, exDB .checked_in) ∧
    scanPOST (scanPOST (exDB .checked_in) "QR1" "s1" 77).2 "QR1" "s1" 99 =
      scanPOST (exDB .checked_in) "QR1" "s1" 99 := by
  have h := scanPOST_already_checked_in_idempotent (exDB .checked_in) "QR1" "s1" 77 99
    (by decide) (by decide) exQR rfl exSchedule rfl (exReservation .checked_in) rfl rfl
  exact ⟨h.1, h.2.1⟩

/-- Claim C6: a bulk-delete request naming a courseId whose course is not
owned by the requesting coach returns 403, and one naming an unknown
course returns 404, in both cases with the store completely unchanged. -/
theorem bulkDeletePOST_forbidden_untouched (db : DB) (req : BulkReq)
    (delFail resFail : String → Bool) (coachId cid : String)
    (hcoach : req.coachId = some coachId) (hcid : req.courseId = some cid) :
    (courseService.getById db cid = none →
      bulkDeletePOST db req delFail resFail = (.error 404 "Course not found", db)) ∧
    (∀ course, courseService.getById db cid = some course → course.coachId ≠ coachId →
      bulkDeletePOST db req delFail resFail =
        (.error 403 "You do not have permission to delete schedules for this course", db)) := by
  constructor
  · intro h404
    simp [bulkDeletePOST, hcoach, hcid, filterByCourse, h404]
  · intro course hcourse hne
    simp [bulkDeletePOST, hcoach, hcid, filterByCourse, hcourse, hne]

/-- Witness for C6: requesting deletion for course c2 (owned by a
different coach) as coach1 yields 403 and an unchanged store. -/
theorem bulkDeletePOST_forbidden_untouched_witness :
    bulkDeletePOST (exDB .booked)
        { courseId := some "c2", startDate := none, endDate := none, coachId := some "coach1" }
        (fun _ => false) (fun _ => false) =
      (.error 403 "You do not have permission to delete schedules for this course",
       exDB .booked) := by
  exact (bulkDeletePOST_forbidden_untouched (exDB .booked)
      { courseId := some "c2", startDate := none, endDate := none, coachId := some "coach1" }
      (fun _ => false) (fun _ => false) "coach1" "c2" rfl rfl).2 exCourseOther rfl (by decide)

/-- When a keyed query misses a whole list, appending one matching
record makes the query return exactly that record. -/
theorem find?_append_of_none {α : Type} (p : α → Bool) (l : List α) (x : α)
    (h : l.find? p = none) (hx : p x = true) : (l ++ [x]).find? p = some x := by
  induction l with
  | nil => simp [hx]
  | cons a t ih =>
    by_cases hpa : p a = true
    · rw [List.find?_cons_of_pos _ hpa] at h
      exact absurd h (by simp)
    · rw [List.find?_cons_of_neg _ hpa] at h
      rw [List.cons_append, List.find?_cons_of_neg _ hpa]
      exact ih h

/-- A fresh QR record for a user satisfies the by-user query predicate. -/
theorem getByUserId_create_of_none (db : DB) (u : String) (now : Nat)
    (h : userQRCodeService.getByUserId db u = none) :
    userQRCodeService.getByUserId (userQRCodeService.create db (newQR u now)) u
      = some (newQR u now) := by
  simp only [userQRCodeService.getByUserId, userQRCodeService.create] at h ⊢
  exact find?_append_of_none _ _ _ h (by simp [newQR])

/-- Claim C8: resolving or creating the QR identity is idempotent: an
existing identity is returned untouched, a record is created only when
none exists (with token USER_<userId>_<creationTimestamp>), and every
call after the first returns the same identity without changing the
store, so at most one record is ever persisted per user. -/
theorem resolveOrCreateQR_idempotent (db : DB) (u : String) (now now2 : Nat) :
    (∀ q, userQRCodeService.getByUserId db u = some q →
      resolveOrCreateQR db u now = (some q, db)) ∧
    (userQRCodeService.getByUserId db u = none →
      resolveOrCreateQR db u now =
        (some (newQR u now), userQRCodeService.create db (newQR u now)) ∧
      (newQR u now).qrCodeData = "USER_" ++ u ++ "_" ++ toString now) ∧
    (∀ q db1, resolveOrCreateQR db u now = (some q, db1) →
      resolveOrCreateQR db1 u now2 = (some q, db1)) := by
  refine ⟨?_, ?_, ?_⟩
  · intro q h
    simp [resolveOrCreateQR, h]
  · intro h
    refine ⟨?_, rfl⟩
    simp [resolveOrCreateQR, h, getByUserId_create_of_none db u now h]
  · intro q db1 hres
    cases hfind : userQRCodeService.getByUserId db u with
    | some q0 =>
      rw [show resolveOrCreateQR db u now = (some q0, db) by simp [resolveOrCreateQR, hfind]]
        at hres
      injection hres with hq hdb
      injection hq with hq
      subst hq hdb
      simp [resolveOrCreateQR, hfind]
    | none =>
      have hcreated := getByUserId_create_of_none db u now hfind
      rw [show resolveOrCreateQR db u now =
            (some (newQR u now), userQRCodeService.create db (newQR u now)) by
          simp [resolveOrCreateQR, hfind, hcreated]] at hres
      injection hres with hq hdb
      injection hq with hq
      subst hq hdb
      simp [resolveOrCreateQR, hcreated]

/-- Witness for C8: in a store with no identity for u1, the first call
creates the USER_u1_7 identity and the second call returns the same
identity with the store fixed. -/
theorem resolveOrCreateQR_idempotent_witness :
    resolveOrCreateQR exDBNoQR "u1" 7 =
      (some (newQR "u1" 7), userQRCodeService.create exDBNoQR (newQR "u1" 7)) ∧
    resolveOrCreateQR (userQRCodeService.create exDBNoQR (newQR "u1" 7)) "u1" 9 =
      (some (newQR "u1" 7), userQRCodeService.create exDBNoQR (newQR "u1" 7)) := by
  have h := resolveOrCreateQR_idempotent exDBNoQR "u1" 7 9
  have h2 := (h.2.1 rfl).1
  exact ⟨h2, h.2.2 _ _ h2⟩

/-- resolveOrCreate always yields an identity (found or freshly
created). -/
theorem resolveOrCreateQR_some (db : DB) (u : String) (now : Nat) :
    ∃ q, (resolveOrCreateQR db u now).1 = some q := by
  cases hfind : userQRCodeService.getByUserId db u with
  | some q0 => exact ⟨q0, by simp [resolveOrCreateQR, hfind]⟩
  | none =>
    exact ⟨newQR u now,
      by simp [resolveOrCreateQR, hfind, getByUserId_create_of_none db u now hfind]⟩

/-- resolveOrCreate never touches the reservation collection. -/
theorem resolveOrCreateQR_reservations (db : DB) (u : String) (now : Nat) :
    (resolveOrCreateQR db u now).2.reservations = db.reservations := by
  cases hfind : userQRCodeService.getByUserId db u <;>
    simp [resolveOrCreateQR, hfind, userQRCodeService.create]

/-- resolveOrCreate never dispatches e-mail. -/
theorem resolveOrCreateQR_emails (db : DB) (u : String) (now : Nat) :
    (resolveOrCreateQR db u now).2.emails = db.emails := by
  cases hfind : userQRCodeService.getByUserId db u <;>
    simp [resolveOrCreateQR, hfind, userQRCodeService.create]

/-- The creation tail succeeds and persists a booked reservation for the
pair whenever the class times are formattable and the notification does
not fail, for either e-mail outcome. -/
theorem createRest_success (db : DB) (user : UserRec) (schedule : Schedule)
    (u s : String) (now : Nat) (ef : Bool) (d1 d2 : JSDate)
    (hst : asJSDate schedule.startTime = some d1)
    (het : asJSDate schedule.endTime = some d2) :
    (createRest db user schedule u s now false ef).1.isOk = true ∧
    ((createRest db user schedule u s now false ef).2.reservations.any
      (fun r => r.userId = u ∧ r.scheduleId = s ∧ r.status = .booked)) = true := by
  obtain ⟨q, hq1⟩ := resolveOrCreateQR_some db u now
  rcases hp : resolveOrCreateQR db u now with ⟨q1, db2⟩
  rw [hp] at hq1
  simp only at hq1
  subst hq1
  cases ef <;>
    simp [createRest, hp, hst, het, helmetReservationService.create, CreateOut.isOk,
      notificationService.create, List.any_append]

/-- When the notification collaborator throws, the creation tail surfaces
a 500 from the outer catch, yet the booked reservation persisted just
before remains in the store. -/
theorem createRest_notif_failure (db : DB) (user : UserRec) (schedule : Schedule)
    (u s : String) (now : Nat) (ef : Bool) (d1 d2 : JSDate)
    (hst : asJSDate schedule.startTime = some d1)
    (het : asJSDate schedule.endTime = some d2) :
    (createRest db user schedule u s now true ef).1 = .error 500 "Internal server error" ∧
    ((createRest db user schedule u s now true ef).2.reservations.any
      (fun r => r.userId = u ∧ r.scheduleId = s ∧ r.status = .booked)) = true := by
  obtain ⟨q, hq1⟩ := resolveOrCreateQR_some db u now
  rcases hp : resolveOrCreateQR db u now with ⟨q1, db2⟩
  rw [hp] at hq1
  simp only at hq1
  subst hq1
  constructor <;>
    simp [createRest, hp, hst, het, helmetReservationService.create, List.any_append]

/-- When the e-mail dispatch throws, the creation tail still reports
success and no e-mail is recorded. -/
theorem createRest_email_failure (db : DB) (user : UserRec) (schedule : Schedule)
    (u s : String) (now : Nat) (d1 d2 : JSDate)
    (hst : asJSDate schedule.startTime = some d1)
    (het : asJSDate schedule.endTime = some d2) :
    (createRest db user schedule u s now false true).1.isOk = true ∧
    (createRest db user schedule u s now false true).2.emails = db.emails := by
  obtain ⟨q, hq1⟩ := resolveOrCreateQR_some db u now
  have hem := resolveOrCreateQR_emails db u now
  rcases hp : resolveOrCreateQR db u now with ⟨q1, db2⟩
  rw [hp] at hq1 hem
  simp only at hq1 hem
  subst hq1
  constructor <;>
    simp [createRest, hp, hst, het, helmetReservationService.create, CreateOut.isOk,
      notificationService.create, hem]

/-- Claim C2: creating a reservation for a (user, schedule) pair that
already has one in state booked or checked_in fails with the duplicate
Conflict (400) and creates nothing; creating when the existing one is
cancelled, or when none exists, succeeds and persists a booked
reservation for the pair. -/
theorem createPOST_duplicate_rules (db : DB) (u s : String) (now : Nat)
    (nf ef : Bool) (hu : u ≠ "") (hs : s ≠ "")
    (user : UserRec) (hUser : userService.getById db u = some user)
    (schedule : Schedule) (hSch : scheduleService.getById db s = some schedule) :
    (∀ r, helmetReservationService.getByUserAndSchedule db u s = some r →
      (r.status = .booked ∨ r.status = .checked_in) →
      createPOST db u s now nf ef =
        (.error 400 "You already have a reservation for this class", db)) ∧
    (∀ d1 d2, asJSDate schedule.startTime = some d1 → asJSDate schedule.endTime = some d2 →
      (helmetReservationService.getByUserAndSchedule db u s = none ∨
       ∃ r, helmetReservationService.getByUserAndSchedule db u s = some r ∧
         r.status = .cancelled) →
      (createPOST db u s now false ef).1.isOk = true ∧
      ((createPOST db u s now false ef).2.reservations.any
        (fun r => r.userId = u ∧ r.scheduleId = s ∧ r.status = .booked)) = true) := by
  have hcond : ¬(u = "" ∨ s = "") := by
    rintro (h | h)
    · exact hu h
    · exact hs h
  constructor
  · intro r hr hst
    have hne : r.status ≠ .cancelled := by
      rcases hst with h | h <;> simp [h]
    simp [createPOST, if_neg hcond, hUser, hSch, hr, hne]
  · intro d1 d2 h1 h2 hcase
    have hgoal := createRest_success db user schedule u s now ef d1 d2 h1 h2
    rcases hcase with hnone | ⟨r, hr, hcanc⟩
    · rw [show createPOST db u s now false ef = createRest db user schedule u s now false ef by
        simp [createPOST, if_neg hcond, hUser, hSch, hnone]]
      exact hgoal
    · rw [show createPOST db u s now false ef = createRest db user schedule u s now false ef by
        simp [createPOST, if_neg hcond, hUser, hSch, hr, hcanc]]
      exact hgoal

/-- Witness for C2: with the booked fixture reservation in place, a
second creation attempt for (u1, s1) is rejected with the duplicate
Conflict and the store is unchanged; after cancellation it succeeds. -/
theorem createPOST_duplicate_rules_witness :
    createPOST (exDB .booked) "u1" "s1" 5 false false =
      (.error 400 "You already have a reservation for this class", exDB .booked) ∧
    (createPOST (exDB .cancelled) "u1" "s1" 5 false false).1.isOk = true := by
  constructor
  · exact (createPOST_duplicate_rules (exDB .booked) "u1" "s1" 5 false false (by decide)
      (by decide) exUser rfl exSchedule rfl).1 (exReservation .booked) rfl (Or.inl rfl)
  · exact ((createPOST_duplicate_rules (exDB .cancelled) "u1" "s1" 5 false false (by decide)
      (by decide) exUser rfl exSchedule rfl).2 (.valid 1000) (.valid 2000) rfl rfl
      (Or.inr ⟨exReservation .cancelled, rfl, rfl⟩)).1

/-- Claim C7 (amended): after the reservation is persisted, a failing
e-mail dispatch is caught locally and the endpoint still returns success;
a failing notification creation is NOT caught locally — it propagates to
the top-level handler, which returns a 500 error instead of the success
response — though the persisted reservation is not rolled back. -/
theorem createPOST_side_effect_handling (db : DB) (u s : String) (now : Nat)
    (hu : u ≠ "") (hs : s ≠ "")
    (user : UserRec) (hUser : userService.getById db u = some user)
    (schedule : Schedule) (hSch : scheduleService.getById db s = some schedule)
    (hNoRes : helmetReservationService.getByUserAndSchedule db u s = none)
    (d1 d2 : JSDate) (hst : asJSDate schedule.startTime = some d1)
    (het : asJSDate schedule.endTime = some d2) :
    ((createPOST db u s now false true).1.isOk = true ∧
     (createPOST db u s now false true).2.emails = db.emails) ∧
    (∀ ef, (createPOST db u s now true ef).1 = .error 500 "Internal server error" ∧
      ((createPOST db u s now true ef).2.reservations.any
        (fun r => r.userId = u ∧ r.scheduleId = s ∧ r.status = .booked)) = true) := by
  have hcond : ¬(u = "" ∨ s = "") := by
    rintro (h | h)
    · exact hu h
    · exact hs h
  have hred : ∀ nf ef, createPOST db u s now nf ef = createRest db user schedule u s now nf ef := by
    intro nf ef
    simp [createPOST, if_neg hcond, hUser, hSch, hNoRes]
  constructor
  · rw [hred]
    exact createRest_email_failure db user schedule u s now d1 d2 hst het
  · intro ef
    rw [hred]
    exact createRest_notif_failure db user schedule u s now ef d1 d2 hst het

/-- Witness for C7's amended theorem: on the fixture store with no
existing reservation, an e-mail failure still yields success with no
e-mail recorded, and a notification failure yields a 500 while the booked
reservation remains persisted. -/
theorem createPOST_side_effect_handling_witness :
    ((createPOST exDBNoRes "u1" "s1" 5 false true).1.isOk = true ∧
     (createPOST exDBNoRes "u1" "s1" 5 false true).2.emails = exDBNoRes.emails) ∧
    ((createPOST exDBNoRes "u1" "s1" 5 true false).1 = .error 500 "Internal server error" ∧
     ((createPOST exDBNoRes "u1" "s1" 5 true false).2.reservations.any
       (fun r => r.userId = "u1" ∧ r.scheduleId = "s1" ∧ r.status = .booked)) = true) := by
  have h := createPOST_side_effect_handling exDBNoRes "u1" "s1" 5 (by decide) (by decide)
    exUser rfl exSchedule rfl rfl (.valid 1000) (.valid 2000) rfl rfl
  exact ⟨h.1, h.2 false⟩

/-- Counterexample to C7 as stated: on a store where the reservation
itself persists fine, a notification-creation failure is not swallowed —
the endpoint answers 500, not the claimed success response. -/
theorem createPOST_notif_failure_counterexample :
    (createPOST exDBNoRes "u1" "s1" 5 true false).1
      = .error 500 "Internal server error" := by decide

/-- Cancelling one reservation never touches the schedule collection. -/
theorem cancelResStep_schedules (st : LoopState) (r : Reservation) :
    (cancelResStep st r).db.schedules = st.db.schedules := by
  unfold cancelResStep
  split <;> simp [helmetReservationService.cancel]

/-- Cancelling one reservation never touches the deletion counter. -/
theorem cancelResStep_deletedCount (st : LoopState) (r : Reservation) :
    (cancelResStep st r).deletedCount = st.deletedCount := by
  unfold cancelResStep
  split <;> rfl

/-- Cancelling one reservation never touches the error list. -/
theorem cancelResStep_errors (st : LoopState) (r : Reservation) :
    (cancelResStep st r).errors = st.errors := by
  unfold cancelResStep
  split <;> rfl

/-- The reservation-cancellation sub-loop never touches the schedule
collection. -/
theorem cancelFold_schedules (rs : List Reservation) (st : LoopState) :
    (rs.foldl cancelResStep st).db.schedules = st.db.schedules := by
  induction rs generalizing st with
  | nil => rfl
  | cons r t ih => rw [List.foldl_cons, ih, cancelResStep_schedules]

/-- The reservation-cancellation sub-loop never touches the deletion
counter. -/
theorem cancelFold_deletedCount (rs : List Reservation) (st : LoopState) :
    (rs.foldl cancelResStep st).deletedCount = st.deletedCount := by
  induction rs generalizing st with
  | nil => rfl
  | cons r t ih => rw [List.foldl_cons, ih, cancelResStep_deletedCount]

/-- The reservation-cancellation sub-loop never touches the error list. -/
theorem cancelFold_errors (rs : List Reservation) (st : LoopState) :
    (rs.foldl cancelResStep st).errors = st.errors := by
  induction rs generalizing st with
  | nil => rfl
  | cons r t ih => rw [List.foldl_cons, ih, cancelResStep_errors]

/-- One loop iteration increments deletedCount exactly when the delete
call does not fail. -/
theorem processOne_deletedCount (d r : String → Bool) (st : LoopState) (s : Schedule) :
    (processOne d r st s).deletedCount = st.deletedCount + (if d s.id then 0 else 1) := by
  cases hd : d s.id <;> cases hr : r s.id <;>
    simp [processOne, hd, hr, cancelFold_deletedCount]

/-- One loop iteration appends the delete error message exactly when the
delete call fails; reservation-step failures contribute nothing. -/
theorem processOne_errors (d r : String → Bool) (st : LoopState) (s : Schedule) :
    (processOne d r st s).errors
      = st.errors ++ (if d s.id then [deleteErrMsg s.id] else []) := by
  cases hd : d s.id <;> cases hr : r s.id <;>
    simp [processOne, hd, hr, cancelFold_errors]

/-- One loop iteration never adds schedule documents. -/
theorem processOne_schedules_mem (d r : String → Bool) (st : LoopState) (s : Schedule)
    (t : Schedule) (ht : t ∈ (processOne d r st s).db.schedules) : t ∈ st.db.schedules := by
  cases hd : d s.id <;> cases hr : r s.id <;>
    simp [processOne, hd, hr, deleteScheduleDoc, cancelFold_schedules, List.mem_filter]
      at ht <;> tauto

/-- When the delete call succeeds, the iteration removes every schedule
document with the deleted id. -/
theorem processOne_removes (d r : String → Bool) (st : LoopState) (s : Schedule)
    (hd : d s.id = false) (t : Schedule)
    (ht : t ∈ (processOne d r st s).db.schedules) : t.id ≠ s.id := by
  cases hr : r s.id <;>
    simp [processOne, hd, hr, deleteScheduleDoc, cancelFold_schedules, List.mem_filter]
      at ht <;> tauto

/-- Over a batch, deletedCount counts exactly the schedules whose delete
call succeeded. -/
theorem processFold_deletedCount (d r : String → Bool) (L : List Schedule) (st : LoopState) :
    (L.foldl (processOne d r) st).deletedCount
      = st.deletedCount + (L.filter (fun s => !d s.id)).length := by
  induction L generalizing st with
  | nil => simp
  | cons a L ih =>
    rw [List.foldl_cons, ih, processOne_deletedCount]
    cases hd : d a.id <;> simp [hd] <;> omega

/-- Over a batch, the error list collects exactly the messages of the
schedules whose delete call failed, in order. -/
theorem processFold_errors (d r : String → Bool) (L : List Schedule) (st : LoopState) :
    (L.foldl (processOne d r) st).errors
      = st.errors ++ (L.filter (fun s : Schedule => d s.id)).map
          (fun s : Schedule => deleteErrMsg s.id) := by
  induction L generalizing st with
  | nil => simp
  | cons a L ih =>
    rw [List.foldl_cons, ih, processOne_errors]
    cases hd : d a.id <;> simp [hd]

/-- The batch loop never adds schedule documents. -/
theorem processFold_schedules_mem (d r : String → Bool) (L : List Schedule) (st : LoopState)
    (t : Schedule) (ht : t ∈ (L.foldl (processOne d r) st).db.schedules) :
    t ∈ st.db.schedules := by
  induction L generalizing st with
  | nil => exact ht
  | cons a L ih => exact processOne_schedules_mem d r st a t (ih _ ht)

/-- Every schedule of the batch whose delete call succeeded is absent
from the final schedule collection. -/
theorem processFold_removes (d r : String → Bool) (L : List Schedule) (s : Schedule)
    (hd : d s.id = false) :
    ∀ (st : LoopState) (t : Schedule), s ∈ L →
      t ∈ (L.foldl (processOne d r) st).db.schedules → t.id ≠ s.id := by
  induction L with
  | nil =>
    intro st t hs ht
    cases hs
  | cons a L ih =>
    intro st t hs ht
    rcases List.mem_cons.mp hs with h | h
    · subst h
      exact processOne_removes d r st s hd t (processFold_schedules_mem d r L _ t ht)
    · exact ih _ t h ht

/-- Claim C5: on a non-empty matched set, the loop is best-effort: the
response keeps success=true, deletedCount counts exactly the schedules
whose delete call succeeded, the error list collects exactly the failing
schedules' messages, and every schedule whose delete succeeded is gone
from the store — failures of individual deletes do not abort the rest. -/
theorem bulkDeletePOST_best_effort (db : DB) (req : BulkReq)
    (delFail resFail : String → Bool) (coachId : String)
    (hcoach : req.coachId = some coachId)
    (hfilter : ¬(req.courseId.isNone ∧ req.startDate.isNone ∧ req.endDate.isNone))
    (matched : List Schedule)
    (hm : ∃ byCourse, filterByCourse db coachId req.courseId db.schedules = .ok byCourse ∧
      filterByDate req.startDate req.endDate byCourse = matched)
    (hne : matched ≠ []) :
    (bulkDeletePOST db req delFail resFail).1.successOf = some true ∧
    (bulkDeletePOST db req delFail resFail).1.deletedCountOf
      = some ((matched.filter (fun s : Schedule => !delFail s.id)).length) ∧
    (bulkDeletePOST db req delFail resFail).1.errorsOf
      = some (if (matched.filter (fun s : Schedule => delFail s.id)).isEmpty then none
              else some ((matched.filter (fun s : Schedule => delFail s.id)).map
                (fun s : Schedule => deleteErrMsg s.id))) ∧
    (bulkDeletePOST db req delFail resFail).2
      = (processSchedules delFail resFail db matched).db ∧
    ((matched.filter (fun s : Schedule => !delFail s.id)).all
      (fun sc => (bulkDeletePOST db req delFail resFail).2.schedules.all
        (fun t => t.id ≠ sc.id))) = true := by
  obtain ⟨byCourse, hbc2, hmd⟩ := hm
  have hieq : matched.isEmpty = false := by
    cases matched
    · exact absurd rfl hne
    · rfl
  have herr : (processSchedules delFail resFail db matched).errors
      = (matched.filter (fun s : Schedule => delFail s.id)).map
          (fun s : Schedule => deleteErrMsg s.id) := by
    simpa using processFold_errors delFail resFail matched
      { deletedCount := 0, cancelledCount := 0, errors := [], db := db }
  have hcount : (processSchedules delFail resFail db matched).deletedCount
      = (matched.filter (fun s : Schedule => !delFail s.id)).length := by
    simpa using processFold_deletedCount delFail resFail matched
      { deletedCount := 0, cancelledCount := 0, errors := [], db := db }
  refine ⟨?_, ?_, ?_, ?_, ?_⟩ <;>
    simp only [bulkDeletePOST, hcoach, if_neg hfilter, hbc2, hmd, hieq, Bool.false_eq_true,
      if_false, BulkOut.successOf, BulkOut.deletedCountOf, BulkOut.errorsOf]
  · rw [hcount]
  · rw [herr]
    cases hfl : matched.filter (fun s : Schedule => delFail s.id) <;> simp [hfl]
  · simp only [List.all_eq_true, decide_eq_true_eq]
    intro sc hsc t ht
    obtain ⟨hmem, hdel⟩ := List.mem_filter.mp hsc
    have hdel2 : delFail sc.id = false := by
      cases h : delFail sc.id
      · rfl
      · rw [h] at hdel
        exact absurd hdel (by decide)
    exact processFold_removes delFail resFail matched sc hdel2
      { deletedCount := 0, cancelledCount := 0, errors := [], db := db } t hmem
      (by simpa [processSchedules] using ht)

/-- Witness for C5: two matched schedules, the delete of s2 fails: the
response reports success with deletedCount 1 and the single failure
message, and s1 is removed from the store. -/
theorem bulkDeletePOST_best_effort_witness :
    (bulkDeletePOST (exDB .booked)
        { courseId := some "c1", startDate := none, endDate := none, coachId := some "coach1" }
        (fun id => id = "s2") (fun _ => false)).1.successOf = some true ∧
    (bulkDeletePOST (exDB .booked)
        { courseId := some "c1", startDate := none, endDate := none, coachId := some "coach1" }
        (fun id => id = "s2") (fun _ => false)).1.deletedCountOf = some 1 ∧
    (bulkDeletePOST (exDB .booked)
        { courseId := some "c1", startDate := none, endDate := none, coachId := some "coach1" }
        (fun id => id = "s2") (fun _ => false)).1.errorsOf
      = some (some [deleteErrMsg "s2"]) := by
  have h := bulkDeletePOST_best_effort (exDB .booked)
    { courseId := some "c1", startDate := none, endDate := none, coachId := some "coach1" }
    (fun id => id = "s2") (fun _ => false) "coach1" rfl (by simp)
    [exSchedule, exSchedule2] ⟨_, rfl, rfl⟩ (by decide)
  refine ⟨h.1, ?_, ?_⟩
  · rw [h.2.1]
    decide
  · rw [h.2.2.1]
    decide

/-- Claim C10: reservation-lookup/cancellation failures inside the
bulk-delete loop are caught separately from the schedule deletion: the
response's error list and deletedCount do not depend on them at all (the
error list records only schedule-deletion failures), and a schedule whose
reservation step failed but whose delete succeeded is still deleted,
counted, and removed from the store. -/
theorem bulkDeletePOST_res_failures_logged_only (db : DB) (req : BulkReq)
    (delFail resFail : String → Bool) (coachId : String)
    (hcoach : req.coachId = some coachId)
    (hfilter : ¬(req.courseId.isNone ∧ req.startDate.isNone ∧ req.endDate.isNone))
    (matched : List Schedule)
    (hm : ∃ byCourse, filterByCourse db coachId req.courseId db.schedules = .ok byCourse ∧
      filterByDate req.startDate req.endDate byCourse = matched)
    (hne : matched ≠ []) :
    (∀ resFail2 : String → Bool,
      (bulkDeletePOST db req delFail resFail2).1.errorsOf
        = (bulkDeletePOST db req delFail resFail).1.errorsOf ∧
      (bulkDeletePOST db req delFail resFail2).1.deletedCountOf
        = (bulkDeletePOST db req delFail resFail).1.deletedCountOf) ∧
    (bulkDeletePOST db req delFail resFail).1.errorsOf
      = some (if (matched.filter (fun s : Schedule => delFail s.id)).isEmpty then none
              else some ((matched.filter (fun s : Schedule => delFail s.id)).map
                (fun s : Schedule => deleteErrMsg s.id))) ∧
    ((matched.filter (fun s : Schedule => resFail s.id && !delFail s.id)).all
      (fun sc => (bulkDeletePOST db req delFail resFail).2.schedules.all
        (fun t => t.id ≠ sc.id))) = true := by
  obtain ⟨byCourse, hbc2, hmd⟩ := hm
  have hieq : matched.isEmpty = false := by
    cases matched
    · exact absurd rfl hne
    · rfl
  have herrAll : ∀ r2 : String → Bool, (processSchedules delFail r2 db matched).errors
      = (matched.filter (fun s : Schedule => delFail s.id)).map
          (fun s : Schedule => deleteErrMsg s.id) := by
    intro r2
    simpa using processFold_errors delFail r2 matched
      { deletedCount := 0, cancelledCount := 0, errors := [], db := db }
  have hcountAll : ∀ r2 : String → Bool, (processSchedules delFail r2 db matched).deletedCount
      = (matched.filter (fun s : Schedule => !delFail s.id)).length := by
    intro r2
    simpa using processFold_deletedCount delFail r2 matched
      { deletedCount := 0, cancelledCount := 0, errors := [], db := db }
  refine ⟨?_, ?_, ?_⟩
  · intro resFail2
    constructor <;>
      simp only [bulkDeletePOST, hcoach, if_neg hfilter, hbc2, hmd, hieq, Bool.false_eq_true,
        if_false, BulkOut.errorsOf, BulkOut.deletedCountOf]
    · rw [herrAll resFail2, herrAll resFail]
    · rw [hcountAll resFail2, hcountAll resFail]
  · simp only [bulkDeletePOST, hcoach, if_neg hfilter, hbc2, hmd, hieq, Bool.false_eq_true,
      if_false, BulkOut.errorsOf]
    rw [herrAll resFail]
    cases hfl : matched.filter (fun s : Schedule => delFail s.id) <;> simp [hfl]
  · simp only [bulkDeletePOST, hcoach, if_neg hfilter, hbc2, hmd, hieq, Bool.false_eq_true,
      if_false]
    simp only [List.all_eq_true, decide_eq_true_eq]
    intro sc hsc t ht
    obtain ⟨hmem, hcond⟩ := List.mem_filter.mp hsc
    have hdel2 : delFail sc.id = false := by
      cases h : delFail sc.id
      · rfl
      · rw [h] at hcond
        simp at hcond
    exact processFold_removes delFail resFail matched sc hdel2
      { deletedCount := 0, cancelledCount := 0, errors := [], db := db } t hmem
      (by simpa [processSchedules] using ht)

/-- Witness for C10: with the reservation step failing for s1 and no
delete failures, the response carries no errors at all, and swapping the
reservation-failure pattern leaves the error list untouched. -/
theorem bulkDeletePOST_res_failures_logged_only_witness :
    (bulkDeletePOST (exDB .booked)
        { courseId := some "c1", startDate := none, endDate := none, coachId := some "coach1" }
        (fun _ => false) (fun _ => true)).1.errorsOf
      = (bulkDeletePOST (exDB .booked)
          { courseId := some "c1", startDate := none, endDate := none,
            coachId := some "coach1" }
          (fun _ => false) (fun id => id = "s1")).1.errorsOf ∧
    (bulkDeletePOST (exDB .booked)
        { courseId := some "c1", startDate := none, endDate := none, coachId := some "coach1" }
        (fun _ => false) (fun id => id = "s1")).1.errorsOf = some none := by
  have h := bulkDeletePOST_res_failures_logged_only (exDB .booked)
    { courseId := some "c1", startDate := none, endDate := none, coachId := some "coach1" }
    (fun _ => false) (fun id => id = "s1") "coach1" rfl (by simp)
    [exSchedule, exSchedule2] ⟨_, rfl, rfl⟩ (by decide)
  refine ⟨(h.1 (fun _ => true)).1, ?_⟩
  rw [h.2.1]
  decide

/-- Fixture: a schedule whose startTime is absent. -/
def exSchedAbsent : Schedule :=
  { id := "sA", courseId := "c1", title := "t", startTime := .absent, endTime := .absent,
    location := "", createdBy := "coach1" }

/-- Fixture: a schedule whose startTime is a truthy raw value the Date
constructor cannot parse (an Invalid Date, numerically NaN). -/
def exSchedUnparseable : Schedule :=
  { id := "sU", courseId := "c1", title := "t", startTime := .rawVal .invalid,
    endTime := .absent, location := "", createdBy := "coach1" }

/-- Fixture: a schedule with an embedded-seconds startTime inside the
filter day. -/
def exSchedInRange : Schedule :=
  { id := "sR", courseId := "c1", title := "t", startTime := .secondsObj 10,
    endTime := .absent, location := "", createdBy := "coach1" }

/-- Fixture: a schedule whose startTime is a timestamp before the filter
day. -/
def exSchedEarly : Schedule :=
  { id := "sE", courseId := "c1", title := "t", startTime := .tsToDate (-5),
    endTime := .absent, location := "", createdBy := "coach1" }

/-- Claim C9 (code bug at the unparseable case): with a date filter
present, an absent startTime is excluded and valid instants are kept
exactly when inside the inclusive normalized day range, but a truthy
unparseable startTime — an Invalid Date, whose NaN comparisons are all
false — is RETAINED in the matched set rather than excluded: the
catch-and-exclude guard in the code can never fire because the Date
constructor does not throw on unparseable input. -/
theorem filterByDate_retains_unparseable :
    filterByDate (some 0) (some 0)
        [exSchedAbsent, exSchedUnparseable, exSchedInRange, exSchedEarly]
      = [exSchedUnparseable, exSchedInRange] := by decide

end Afroboosteur
